import Mathlib

/-!
Verification of the redirect-and-analytics core of the qrgenerator repository.

The development shallowly embeds the Python source:
  - `apps/qr_codes/models.py`  — `QRCode.can_scan`, `QRCode.increment_scan_count`
  - `apps/qr_codes/views.py`   — `qr_redirect`, `qr_analytics`
  - `apps/qr_codes/utils.py`   — `get_client_ip`, `generate_visitor_id`,
    `check_password`, `parse_user_agent`

Timestamps are modelled as integers (seconds); a calendar day is 86400
seconds.  Optional columns (`max_scans`, `expires_at`) are `Option Int`,
with Python truthiness made explicit at each use site (`None` and `0` are
falsy for `max_scans`; a datetime is always truthy, so only `None` is
falsy for `expires_at`).  The external collaborators (the SHA-256 digest
of `hashlib` and the `user_agents` classifier) are parameters of the
embedding: the claims under study depend only on the strings fed to them.
-/

namespace QRGen

/-- The fields of the `QRCode` model row (models.py lines 22-156) that the
redirect/analytics path reads or writes.  Presentation fields (size,
colors, error correction) never influence resolution and are omitted. -/
structure QRCode where
  status : String
  destination_url : String
  short_code : String
  password : String
  max_scans : Option Int
  expires_at : Option Int
  total_scans : Int
  unique_scans : Int
  last_scanned_at : Option Int
  deriving Repr, DecidableEq

/-- One `QRScan` row (models.py lines 230-311). -/
structure QRScan where
  ip_address : String
  user_agent : String
  referer : String
  device_type : String
  browser : String
  operating_system : String
  visitor_id : String
  is_unique_visitor : Bool
  was_successful : Bool
  scanned_at : Int
  deriving Repr, DecidableEq

/-- Python truthiness test `if self.expires_at and self.expires_at < timezone.now()`
(models.py line 212): a datetime object is always truthy, so the guard fires
exactly when the column is non-null and strictly earlier than `now`. -/
def expiryBlocks (expires_at : Option Int) (now : Int) : Bool :=
  match expires_at with
  | some e => decide (e < now)
  | none => false

/-- Python truthiness test `if self.max_scans and self.total_scans >= self.max_scans`
(models.py line 215): the integer `0` is falsy, so a zero quota disables the
check just like `None`. -/
def quotaBlocks (max_scans : Option Int) (total_scans : Int) : Bool :=
  match max_scans with
  | some n => decide (n ≠ 0) && decide (n ≤ total_scans)
  | none => false

/-- `QRCode.can_scan` (models.py lines 205-218): returns the pair
`(allowed, error_message)` with the three checks in source order —
status, then expiry, then quota. -/
def can_scan (qr : QRCode) (now : Int) : Bool × Option String :=
  if qr.status ≠ "active" then (false, some "QR code is not active")
  else if expiryBlocks qr.expires_at now then (false, some "QR code has expired")
  else if quotaBlocks qr.max_scans qr.total_scans then (false, some "Maximum scan limit reached")
  else (true, none)

/-- `QRCode.increment_scan_count` (models.py lines 220-227). -/
def increment_scan_count (qr : QRCode) (is_unique : Bool) (now : Int) : QRCode :=
  { qr with
    total_scans := qr.total_scans + 1
    unique_scans := qr.unique_scans + (if is_unique then 1 else 0)
    last_scanned_at := some now }

/-- `check_password` (utils.py lines 212-219): plain string equality. -/
def check_password (stored_password input_password : String) : Bool :=
  stored_password == input_password

/-- The request metadata the resolution path reads.  `password_param` is
`request.GET.get('password', '')`: `none` models an absent query
parameter, which Python defaults to the empty string. -/
structure Request where
  x_forwarded_for : Option String
  remote_addr : String
  user_agent : String
  referer : String
  password_param : Option String
  deriving Repr, DecidableEq

/-- `get_client_ip` (utils.py lines 179-190): first entry of
`X-Forwarded-For` when that header is present and non-empty (Python
truthiness), else `REMOTE_ADDR`. -/
def get_client_ip (req : Request) : String :=
  match req.x_forwarded_for with
  | some s => if s = "" then req.remote_addr else (s.splitOn ",").headD s
  | none => req.remote_addr

/-- The string `f"{ip}:{user_agent}"` fed to the digest
(utils.py line 206). -/
def unique_string (ip user_agent : String) : String :=
  ip ++ ":" ++ user_agent

/-- `generate_visitor_id` (utils.py lines 193-209): the SHA-256 hex digest
of `unique_string`; the digest itself is the external `hashlib`
collaborator, passed in as `hash`. -/
def generate_visitor_id (hash : String → String) (req : Request) : String :=
  hash (unique_string (get_client_ip req) req.user_agent)

/-- The flags and labels the external `user_agents.parse` collaborator
returns for a raw user-agent string. -/
structure UAFlags where
  is_mobile : Bool
  is_tablet : Bool
  is_pc : Bool
  is_bot : Bool
  browser_family : String
  browser_version_string : String
  os_family : String
  os_version_string : String
  deriving Repr, DecidableEq

/-- The dictionary `parse_user_agent` builds (utils.py lines 146-176),
restricted to the fields the scan record stores. -/
structure UAInfo where
  device_type : String
  browser : String
  operating_system : String
  deriving Repr, DecidableEq

/-- `parse_user_agent` (utils.py lines 146-176): derives the device class
from the classifier flags in source order and formats the browser/OS
labels as `family version`. -/
def parse_user_agent (classify : String → UAFlags) (ua : String) : UAInfo :=
  let u := classify ua
  { device_type :=
      if u.is_mobile then "mobile"
      else if u.is_tablet then "tablet"
      else if u.is_pc then "desktop"
      else "unknown"
    browser := u.browser_family ++ " " ++ u.browser_version_string
    operating_system := u.os_family ++ " " ++ u.os_version_string }

/-- The store state the resolution path touches: one mapping row and its
scan rows (`QRScan.objects.filter(qr_code=...)`), in insertion order. -/
structure ResolveState where
  qr : QRCode
  scans : List QRScan
  deriving Repr, DecidableEq

/-- The four outcomes of `qr_redirect` (views.py lines 248-322): the 404,
the error page with the policy reason, the password page, and the HTTP
redirect to the destination. -/
inductive ResolveResult where
  | NotFound
  | Denied (reason : String)
  | PasswordRequired
  | Resolved (destination : String)
  deriving Repr, DecidableEq

/-- The password gate of `qr_redirect` (views.py lines 274-281): entered
only for a non-empty stored password; blocks when the supplied parameter
defaults to the empty string or fails `check_password`. -/
def password_gate_blocks (qr : QRCode) (req : Request) : Bool :=
  qr.password ≠ "" &&
    (let pw := req.password_param.getD ""
     pw == "" || !(check_password qr.password pw))

/-- The `QRScan.objects.create(...)` argument list of views.py lines
297-308. -/
def build_scan (classify : String → UAFlags) (req : Request) (visitor_id : String)
    (is_unique : Bool) (now : Int) : QRScan :=
  let info := parse_user_agent classify req.user_agent
  { ip_address := get_client_ip req
    user_agent := req.user_agent
    referer := req.referer
    device_type := info.device_type
    browser := info.browser
    operating_system := info.operating_system
    visitor_id := visitor_id
    is_unique_visitor := is_unique
    was_successful := true
    scanned_at := now }

/-- First store commit of the recording phase: the `QRScan.objects.create`
call (views.py line 297), an INSERT that commits on its own under
Django's default autocommit. -/
def insert_scan (st : ResolveState) (scan : QRScan) : ResolveState :=
  { st with scans := st.scans ++ [scan] }

/-- Second store commit of the recording phase: the
`qr_code.increment_scan_count(...)` call (views.py line 311), an UPDATE
of the cached counters that commits separately from the INSERT. -/
def update_counters (st : ResolveState) (is_unique : Bool) (now : Int) : ResolveState :=
  { st with qr := increment_scan_count st.qr is_unique now }

/-- The visitor-uniqueness probe of views.py lines 291-294:
`not QRScan.objects.filter(qr_code=qr_code, visitor_id=visitor_id).exists()`. -/
def is_unique_visitor_check (st : ResolveState) (visitor_id : String) : Bool :=
  !(st.scans.any fun s => s.visitor_id == visitor_id)

/-- `qr_redirect` (views.py lines 248-322) for a mapping found by its
short code: policy check, password gate, then the two-commit recording
phase, returning the outcome and the new store state. -/
def qr_redirect (hash : String → String) (classify : String → UAFlags)
    (st : ResolveState) (req : Request) (now : Int) : ResolveResult × ResolveState :=
  let c := can_scan st.qr now
  if !c.1 then (.Denied (c.2.getD ""), st)
  else if password_gate_blocks st.qr req then (.PasswordRequired, st)
  else
    let visitor_id := generate_visitor_id hash req
    let is_unique := is_unique_visitor_check st visitor_id
    let scan := build_scan classify req visitor_id is_unique now
    let st1 := insert_scan st scan
    let st2 := update_counters st1 is_unique now
    (.Resolved st.qr.destination_url, st2)

/-- Folding `qr_redirect` over a sequence of requests, threading the
store state. -/
def qr_redirect_seq (hash : String → String) (classify : String → UAFlags) :
    ResolveState → List (Request × Int) → ResolveState
  | st, [] => st
  | st, (req, now) :: rest =>
      qr_redirect_seq hash classify (qr_redirect hash classify st req now).2 rest

/-- The cached-counter invariant of the data model: the mapping's cached
totals agree with the scan log. -/
def counters_consistent (st : ResolveState) : Prop :=
  st.qr.total_scans = (st.scans.length : Int) ∧
  st.qr.unique_scans = ((st.scans.filter fun s => s.is_unique_visitor).length : Int)

instance (st : ResolveState) : Decidable (counters_consistent st) :=
  inferInstanceAs (Decidable (_ ∧ _))

/-! ### Analytics aggregation (`qr_analytics`, views.py lines 325-370)

The view issues `GROUP BY` queries ordered by `-count` (device, browser,
OS) and by `date` (per-day buckets).  SQL fixes the multiset of
`(label, count)` rows — one row per distinct label with its count — and
the sort key, but `ORDER BY count DESC` leaves the relative order of
equal counts to the database.  The aggregation is therefore embedded as
a *relation* between the scan rows and an output list: the output must be
a permutation of the group counts and be sorted on the query's sort key.
-/

/-- `timezone.now() - timezone.timedelta(days=days)` followed by
`scans.filter(scanned_at__gte=start_date)` (views.py lines 331-335),
with a day as 86400 seconds. -/
def analytics_window (scans : List QRScan) (now : Int) (days : Int) : List QRScan :=
  let start_date := now - days * 86400
  scans.filter fun s => decide (start_date ≤ s.scanned_at)

/-- The `(label, COUNT(id))` rows a `values(...).annotate(count=Count('id'))`
query produces, one per distinct label, enumerated here in first-occurrence
order (the order is irrelevant: outputs are compared up to permutation). -/
def group_counts (proj : QRScan → String) (scans : List QRScan) : List (String × Nat) :=
  ((scans.map proj).eraseDups).map fun lab =>
    (lab, (scans.filter fun s => proj s == lab).length)

/-- `ORDER BY count DESC`: adjacent counts are non-increasing. -/
def sorted_desc_by_count : List (String × Nat) → Bool
  | a :: b :: rest => decide (b.2 ≤ a.2) && sorted_desc_by_count (b :: rest)
  | _ => true

/-- `ORDER BY date` on the by-day buckets: adjacent dates are
non-decreasing. -/
def sorted_asc_by_day : List (Int × Nat) → Bool
  | a :: b :: rest => decide (a.1 ≤ b.1) && sorted_asc_by_day (b :: rest)
  | _ => true

/-- The outputs an `order_by('-count')` grouping query may return: the
group-count rows in some order with counts non-increasing. -/
def valid_group_result (proj : QRScan → String) (scans : List QRScan)
    (r : List (String × Nat)) : Prop :=
  r.Perm (group_counts proj scans) ∧ sorted_desc_by_count r = true

instance (proj : QRScan → String) (scans : List QRScan) (r : List (String × Nat)) :
    Decidable (valid_group_result proj scans r) :=
  inferInstanceAs (Decidable (_ ∧ _))

/-- `TruncDate('scanned_at')` (views.py lines 353-355): truncation of a
timestamp to its calendar day, with a day as 86400 seconds. -/
def trunc_date (t : Int) : Int :=
  t.fdiv 86400

/-- The `(date, COUNT(id))` rows of the by-day query, one per distinct
day, enumerated in first-occurrence order. -/
def day_counts (scans : List QRScan) : List (Int × Nat) :=
  ((scans.map fun s => trunc_date s.scanned_at).eraseDups).map fun d =>
    (d, (scans.filter fun s => trunc_date s.scanned_at == d).length)

/-- The outputs the `order_by('date')` by-day query may return: the
per-day rows in chronological (non-decreasing date) order. -/
def valid_by_day_result (scans : List QRScan) (r : List (Int × Nat)) : Prop :=
  r.Perm (day_counts scans) ∧ sorted_asc_by_day r = true

instance (scans : List QRScan) (r : List (Int × Nat)) :
    Decidable (valid_by_day_result scans r) :=
  inferInstanceAs (Decidable (_ ∧ _))

/-- The context dictionary `qr_analytics` renders (views.py lines
360-368). -/
structure AnalyticsResult where
  total_scans : Nat
  device_stats : List (String × Nat)
  browser_stats : List (String × Nat)
  os_stats : List (String × Nat)
  scans_by_date : List (Int × Nat)
  deriving Repr, DecidableEq

/-- `qr_analytics` (views.py lines 325-370) as a relation between the
mapping's scan rows and a possible rendered context: the time window is
applied, `total_scans = scans.count()`, the three groupings are ordered
by descending count, and the by-day buckets by date. -/
def qr_analytics (scans : List QRScan) (now : Int) (days : Int)
    (r : AnalyticsResult) : Prop :=
  let w := analytics_window scans now days
  r.total_scans = w.length ∧
  valid_group_result (fun s => s.device_type) w r.device_stats ∧
  valid_group_result (fun s => s.browser) w r.browser_stats ∧
  valid_group_result (fun s => s.operating_system) w r.os_stats ∧
  valid_by_day_result w r.scans_by_date

instance (scans : List QRScan) (now : Int) (days : Int) (r : AnalyticsResult) :
    Decidable (qr_analytics scans now days r) :=
  inferInstanceAs (Decidable (_ ∧ _))

/-- The spec's presentation order for count groupings: descending count
with ties broken by ascending label.  Stated from the spec's words, to be
compared with what `valid_group_result` (the source behaviour) actually
guarantees. -/
def spec_tiebreak_sorted : List (String × Nat) → Bool
  | a :: b :: rest =>
      (decide (b.2 < a.2) || (decide (a.2 = b.2) && decide (a.1.data < b.1.data))) &&
        spec_tiebreak_sorted (b :: rest)
  | _ => true

/-! ### Concrete fixtures for witnesses and counterexamples -/

/-- Stand-in for the external SHA-256 digest in concrete evaluations; the
claims never depend on the digest's value, only on the string fed to it. -/
def wHash : String → String := fun s => s

/-- Stand-in for the external user-agent classifier in concrete
evaluations: classifies everything as an Android Chrome mobile. -/
def wClassify : String → UAFlags :=
  fun _ => ⟨true, false, false, false, "Chrome", "120", "Android", "14"⟩

/-- A plain request with no forwarded header and no password parameter. -/
def wReq : Request := ⟨none, "203.0.113.7", "Mozilla/5.0", "", none⟩

/-- A paused mapping that is also expired and over quota at time 100. -/
def wPausedQr : QRCode :=
  ⟨"paused", "https://dest.example", "code0001", "", some 1, some 10, 5, 5, none⟩

/-- An active mapping that is expired and over quota at time 100. -/
def wActiveExpiredQr : QRCode := { wPausedQr with status := "active" }

/-- An active, never-expiring mapping whose expiry column is exactly 100. -/
def wAtExpiryQr : QRCode :=
  ⟨"active", "https://dest.example", "code0002", "", none, some 100, 0, 0, none⟩

/-- An active mapping with `max_scans = 0` and an enormous cached total. -/
def wZeroQuotaQr : QRCode :=
  ⟨"active", "https://dest.example", "code0003", "", some 0, none, 999999, 3, none⟩

/-- An active mapping with quota 2 and cached total 1: the next (second)
resolution is the N-th and must still succeed. -/
def wQuotaQr : QRCode :=
  ⟨"active", "https://dest.example", "code0004", "", some 2, none, 1, 1, none⟩

/-- The same mapping once its cached total has reached the quota. -/
def wOverQuotaQr : QRCode := { wQuotaQr with total_scans := 2 }

/-- An active mapping protected by the password "hunter2". -/
def wPwQr : QRCode :=
  ⟨"active", "https://dest.example", "code0005", "hunter2", none, none, 0, 0, none⟩

/-- A fresh active mapping with no limits and zeroed counters. -/
def wFreshQr : QRCode :=
  ⟨"active", "https://dest.example", "code0006", "", none, none, 0, 0, none⟩

/-- A stored scan row carrying the fingerprint that `wReq` hashes to
under `wHash`. -/
def wSeenScan : QRScan :=
  build_scan wClassify wReq "203.0.113.7:Mozilla/5.0" true 10

/-- The store state after that one scan was recorded. -/
def wSeenSt : ResolveState :=
  ⟨{ wFreshQr with total_scans := 1, unique_scans := 1, last_scanned_at := some 10 },
   [wSeenScan]⟩

/-- The Visit row the recording phase inserts for `wReq` against the
fresh fixture at time 1000. -/
def wC5Scan : QRScan :=
  build_scan wClassify wReq (generate_visitor_id wHash wReq) true 1000

/-- A request whose effective address itself contains a colon. -/
def wColReq1 : Request := ⟨none, "a:b", "c", "", none⟩

/-- A request with a different address and a different agent that
concatenates to the same digest input. -/
def wColReq2 : Request := ⟨none, "a", "b:c", "", none⟩

/-- A scan row carrying given classification labels at a given time; the
remaining request-context fields are fixed. -/
def mkScan (dev browser os : String) (t : Int) : QRScan :=
  ⟨"203.0.113.7", "Mozilla/5.0", "", dev, browser, os, "v", true, true, t⟩

/-- Two same-day visits whose device labels tie at count 1, stored with
the label "b" first. -/
def wTieScans : List QRScan := [mkScan "b" "B" "O" 0, mkScan "a" "B" "O" 0]

/-- An output the grouping queries may return for `wTieScans`: the tied
device rows in first-occurrence order "b" before "a". -/
def wTieResult : AnalyticsResult := ⟨2, [("b", 1), ("a", 1)], [("B", 2)], [("O", 2)], [(0, 2)]⟩

/-- The spec's aggregation scenario: three visits today — devices
mobile, desktop, mobile — all in the same calendar day (day 11). -/
def wScenarioScans : List QRScan :=
  [mkScan "mobile" "Chrome 120" "Android 14" 997000,
   mkScan "desktop" "Safari 17" "macOS 14" 998000,
   mkScan "mobile" "Chrome 120" "Android 14" 999000]

/-- A canonical output for the scenario, used to instantiate the amended
C9 theorem. -/
def wScenarioResult : AnalyticsResult :=
  ⟨3, [("mobile", 2), ("desktop", 1)], [("Chrome 120", 2), ("Safari 17", 1)],
   [("Android 14", 2), ("macOS 14", 1)], [(11, 3)]⟩

/-! ### Branch characterizations of `can_scan` and `qr_redirect` -/

theorem can_scan_not_active {qr : QRCode} {now : Int} (h : qr.status ≠ "active") :
    can_scan qr now = (false, some "QR code is not active") := by
  unfold can_scan
  rw [if_pos h]

theorem can_scan_active_expired {qr : QRCode} {now : Int} (h1 : qr.status = "active")
    (h2 : expiryBlocks qr.expires_at now = true) :
    can_scan qr now = (false, some "QR code has expired") := by
  unfold can_scan
  rw [if_neg (by simp [h1]), if_pos h2]

theorem can_scan_quota_reached {qr : QRCode} {now : Int} (h1 : qr.status = "active")
    (h2 : expiryBlocks qr.expires_at now = false)
    (h3 : quotaBlocks qr.max_scans qr.total_scans = true) :
    can_scan qr now = (false, some "Maximum scan limit reached") := by
  unfold can_scan
  rw [if_neg (by simp [h1]), if_neg (by simp [h2]), if_pos h3]

theorem can_scan_allowed {qr : QRCode} {now : Int} (h1 : qr.status = "active")
    (h2 : expiryBlocks qr.expires_at now = false)
    (h3 : quotaBlocks qr.max_scans qr.total_scans = false) :
    can_scan qr now = (true, none) := by
  unfold can_scan
  rw [if_neg (by simp [h1]), if_neg (by simp [h2]), if_neg (by simp [h3])]

theorem qr_redirect_denied {hash : String → String} {classify : String → UAFlags}
    {st : ResolveState} {req : Request} {now : Int}
    (h : (can_scan st.qr now).1 = false) :
    qr_redirect hash classify st req now =
      (.Denied ((can_scan st.qr now).2.getD ""), st) := by
  unfold qr_redirect
  simp [h]

theorem qr_redirect_password_blocked {hash : String → String} {classify : String → UAFlags}
    {st : ResolveState} {req : Request} {now : Int}
    (h : (can_scan st.qr now).1 = true)
    (hg : password_gate_blocks st.qr req = true) :
    qr_redirect hash classify st req now = (.PasswordRequired, st) := by
  unfold qr_redirect
  simp [h, hg]

theorem qr_redirect_records {hash : String → String} {classify : String → UAFlags}
    {st : ResolveState} {req : Request} {now : Int}
    (h : (can_scan st.qr now).1 = true)
    (hg : password_gate_blocks st.qr req = false) :
    qr_redirect hash classify st req now =
      (.Resolved st.qr.destination_url,
        update_counters
          (insert_scan st
            (build_scan classify req (generate_visitor_id hash req)
              (is_unique_visitor_check st (generate_visitor_id hash req)) now))
          (is_unique_visitor_check st (generate_visitor_id hash req)) now) := by
  unfold qr_redirect
  simp [h, hg]

/-! ### C2 — check order and short-circuit of the policy evaluator -/

/-- C2: `can_scan` performs its checks in the fixed order status, expiry,
quota, and the first failing check determines the denial reason: a
non-active status yields "not active" whatever the expiry and quota
fields hold, an active-but-expired mapping yields "expired" whatever the
quota fields hold, and the quota reason surfaces only when the first two
checks pass. -/
theorem policy_check_order_short_circuit :
    (∀ (qr : QRCode) (now : Int), qr.status ≠ "active" →
       can_scan qr now = (false, some "QR code is not active")) ∧
    (∀ (qr : QRCode) (now e : Int), qr.status = "active" →
       qr.expires_at = some e → e < now →
       can_scan qr now = (false, some "QR code has expired")) ∧
    (∀ (qr : QRCode) (now : Int), qr.status = "active" →
       expiryBlocks qr.expires_at now = false →
       quotaBlocks qr.max_scans qr.total_scans = true →
       can_scan qr now = (false, some "Maximum scan limit reached")) := by
  refine ⟨fun qr now h => can_scan_not_active h, fun qr now e h1 h2 h3 => ?_,
    fun qr now h1 h2 h3 => can_scan_quota_reached h1 h2 h3⟩
  exact can_scan_active_expired h1 (by simp [expiryBlocks, h2, h3])

/-- Witness for C2: the paused fixture (also expired and over quota at
time 100) is denied as "not active"; the active fixture (expired and
over quota) is denied as "expired"; with the expiry cleared the same
fixture is denied for its quota. -/
theorem policy_check_order_short_circuit_witness :
    can_scan wPausedQr 100 = (false, some "QR code is not active") ∧
    can_scan wActiveExpiredQr 100 = (false, some "QR code has expired") ∧
    can_scan { wActiveExpiredQr with expires_at := none } 100 =
      (false, some "Maximum scan limit reached") :=
  ⟨policy_check_order_short_circuit.1 wPausedQr 100 (by decide),
   policy_check_order_short_circuit.2.1 wActiveExpiredQr 100 10 rfl rfl (by decide),
   policy_check_order_short_circuit.2.2 _ 100 rfl (by decide) (by decide)⟩

/-! ### C3 — the expiry comparison is strict in the source -/

/-- Counterexample for C3: the claim says evaluation at exactly the
expiry instant is denied, but `can_scan` tests `expires_at < now`
(models.py line 212), so the fixture whose expiry column is 100 is still
allowed at `now = 100` even though `now ≥ expiry` holds there. -/
theorem expiry_instant_allowed_cex :
    wAtExpiryQr.expires_at = some 100 ∧ (100 : Int) ≤ 100 ∧
    can_scan wAtExpiryQr 100 = (true, none) := by
  decide

/-- C3 (amended): for an active mapping with an expiry timestamp set, the
evaluator returns the "expired" denial exactly when `now` is strictly
greater than the expiry timestamp; at the expiry instant itself the
expiry check passes. -/
theorem expiry_denied_iff_strictly_past (qr : QRCode) (now e : Int)
    (h1 : qr.status = "active") (h2 : qr.expires_at = some e) :
    can_scan qr now = (false, some "QR code has expired") ↔ e < now := by
  constructor
  · intro h
    by_contra hlt
    have hb : expiryBlocks qr.expires_at now = false := by
      simp [expiryBlocks, h2]
      omega
    cases hq : quotaBlocks qr.max_scans qr.total_scans with
    | false => rw [can_scan_allowed h1 hb hq] at h; exact absurd h (by decide)
    | true => rw [can_scan_quota_reached h1 hb hq] at h; exact absurd h (by decide)
  · intro hlt
    exact can_scan_active_expired h1 (by simp [expiryBlocks, h2, hlt])

/-- Witness for the amended C3: one instant past its expiry, the fixture
is denied as expired. -/
theorem expiry_denied_iff_strictly_past_witness :
    can_scan wAtExpiryQr 101 = (false, some "QR code has expired") :=
  (expiry_denied_iff_strictly_past wAtExpiryQr 101 100 rfl rfl).mpr (by decide)

/-! ### C7 — any non-active status denies without side effects -/

/-- C7: for a mapping whose status is not `active` (in particular
`paused`), every resolution attempt returns the "not active" denial and
leaves the store state — scan rows and all cached counters — unchanged,
regardless of expiry and quota. -/
theorem inactive_denied_no_effect (hash : String → String) (classify : String → UAFlags)
    (st : ResolveState) (req : Request) (now : Int)
    (h : st.qr.status ≠ "active") :
    qr_redirect hash classify st req now = (.Denied "QR code is not active", st) := by
  have hc : can_scan st.qr now = (false, some "QR code is not active") :=
    can_scan_not_active h
  rw [qr_redirect_denied (by rw [hc]), hc]
  rfl

/-- Witness for C7: the paused fixture (expired and over quota as well)
resolves to the "not active" denial with the state untouched. -/
theorem inactive_denied_no_effect_witness :
    qr_redirect wHash wClassify ⟨wPausedQr, []⟩ wReq 100 =
      (.Denied "QR code is not active", ⟨wPausedQr, []⟩) :=
  inactive_denied_no_effect wHash wClassify ⟨wPausedQr, []⟩ wReq 100 (by decide)

/-! ### C10 — a zero quota is Python-falsy and disables the quota check -/

/-- C10: a mapping with `max_scans = 0` is evaluated exactly as if
`max_scans` were null — `can_scan` returns the same pair at every
evaluation time whatever the cached total — and (once the policy and
password gates pass) resolution succeeds and appends a Visit row no
matter how large the cached total is. -/
theorem zero_quota_treated_as_absent (hash : String → String) (classify : String → UAFlags)
    (st : ResolveState) (h : st.qr.max_scans = some 0) :
    (∀ now : Int, can_scan st.qr now = can_scan { st.qr with max_scans := none } now) ∧
    (∀ (req : Request) (now : Int), st.qr.status = "active" →
       expiryBlocks st.qr.expires_at now = false →
       password_gate_blocks st.qr req = false →
       (qr_redirect hash classify st req now).1 = .Resolved st.qr.destination_url ∧
       (qr_redirect hash classify st req now).2.scans =
         st.scans ++ [build_scan classify req (generate_visitor_id hash req)
           (is_unique_visitor_check st (generate_visitor_id hash req)) now]) := by
  have hq : quotaBlocks st.qr.max_scans st.qr.total_scans = false := by
    simp [quotaBlocks, h]
  constructor
  · intro now
    unfold can_scan
    simp [quotaBlocks, h]
  · intro req now hact hexp hgate
    have hcs : can_scan st.qr now = (true, none) := can_scan_allowed hact hexp hq
    rw [qr_redirect_records (by rw [hcs]) hgate]
    exact ⟨rfl, by simp [update_counters, insert_scan]⟩

/-- Witness for C10: the zero-quota fixture with cached total 999999 is
still allowed, agrees with its null-quota variant, and a resolution
appends a Visit row. -/
theorem zero_quota_treated_as_absent_witness :
    can_scan wZeroQuotaQr 100 = can_scan { wZeroQuotaQr with max_scans := none } 100 ∧
    ((qr_redirect wHash wClassify ⟨wZeroQuotaQr, []⟩ wReq 100).1 =
        .Resolved wZeroQuotaQr.destination_url ∧
      (qr_redirect wHash wClassify ⟨wZeroQuotaQr, []⟩ wReq 100).2.scans =
        [] ++ [build_scan wClassify wReq (generate_visitor_id wHash wReq)
          (is_unique_visitor_check ⟨wZeroQuotaQr, []⟩ (generate_visitor_id wHash wReq)) 100]) :=
  ⟨(zero_quota_treated_as_absent wHash wClassify ⟨wZeroQuotaQr, []⟩ rfl).1 100,
   (zero_quota_treated_as_absent wHash wClassify ⟨wZeroQuotaQr, []⟩ rfl).2 wReq 100
     rfl rfl (by decide)⟩

/-! ### C1 — the max-scan quota boundary -/

/-- C1: for an active, unexpired mapping with quota `N > 0`: while the
cached total is strictly below `N` (and the password gate passes),
resolution succeeds, appends a Visit row, and increments the total — so
the N-th resolution still succeeds; once the cached total is at least
`N`, resolution is denied with the quota reason and the state is
untouched — so the (N+1)-th resolution is denied. -/
theorem quota_boundary (hash : String → String) (classify : String → UAFlags)
    (st : ResolveState) (req : Request) (now N : Int)
    (hN : st.qr.max_scans = some N) (hpos : 0 < N)
    (hact : st.qr.status = "active")
    (hexp : expiryBlocks st.qr.expires_at now = false) :
    (st.qr.total_scans < N → password_gate_blocks st.qr req = false →
       (qr_redirect hash classify st req now).1 = .Resolved st.qr.destination_url ∧
       (qr_redirect hash classify st req now).2.scans =
         st.scans ++ [build_scan classify req (generate_visitor_id hash req)
           (is_unique_visitor_check st (generate_visitor_id hash req)) now] ∧
       (qr_redirect hash classify st req now).2.qr.total_scans = st.qr.total_scans + 1) ∧
    (N ≤ st.qr.total_scans →
       qr_redirect hash classify st req now = (.Denied "Maximum scan limit reached", st)) := by
  constructor
  · intro hlt hgate
    have hq : quotaBlocks st.qr.max_scans st.qr.total_scans = false := by
      simp [quotaBlocks, hN]
      omega
    have hcs := can_scan_allowed hact hexp hq
    rw [qr_redirect_records (by rw [hcs]) hgate]
    exact ⟨rfl, by simp [update_counters, insert_scan],
      by simp [update_counters, insert_scan, increment_scan_count]⟩
  · intro hge
    have hq : quotaBlocks st.qr.max_scans st.qr.total_scans = true := by
      simp [quotaBlocks, hN]
      omega
    have hcs := can_scan_quota_reached hact hexp hq
    rw [qr_redirect_denied (by rw [hcs]), hcs]
    rfl

/-- Witness for C1 at `N = 2`: with cached total 1 the resolution
resolves to the destination; with cached total 2 it is denied with the
quota reason and the state is untouched. -/
theorem quota_boundary_witness :
    (qr_redirect wHash wClassify ⟨wQuotaQr, []⟩ wReq 50).1 =
      .Resolved wQuotaQr.destination_url ∧
    qr_redirect wHash wClassify ⟨wOverQuotaQr, []⟩ wReq 50 =
      (.Denied "Maximum scan limit reached", ⟨wOverQuotaQr, []⟩) :=
  ⟨((quota_boundary wHash wClassify ⟨wQuotaQr, []⟩ wReq 50 2 rfl (by decide) rfl rfl).1
      (by decide) (by decide)).1,
   (quota_boundary wHash wClassify ⟨wOverQuotaQr, []⟩ wReq 50 2 rfl (by decide) rfl rfl).2
      (by decide)⟩

/-! ### C4 — the password gate and its frame -/

/-- C4: for a mapping with a non-empty password whose policy check
passes, a request whose password parameter is absent or differs from the
stored password (plain equality) terminates in `PasswordRequired` with
the store state — scan rows, total, unique and last-scan fields — fully
unchanged; a request supplying exactly the stored password proceeds to
recording: a Visit row is appended and the total is incremented, and the
destination is returned. -/
theorem password_gate_frame (hash : String → String) (classify : String → UAFlags)
    (st : ResolveState) (req : Request) (now : Int)
    (hpw : st.qr.password ≠ "") (hcan : (can_scan st.qr now).1 = true) :
    ((req.password_param = none ∨ req.password_param.getD "" ≠ st.qr.password) →
       qr_redirect hash classify st req now = (.PasswordRequired, st)) ∧
    (req.password_param = some st.qr.password →
       (qr_redirect hash classify st req now).1 = .Resolved st.qr.destination_url ∧
       (qr_redirect hash classify st req now).2.scans =
         st.scans ++ [build_scan classify req (generate_visitor_id hash req)
           (is_unique_visitor_check st (generate_visitor_id hash req)) now] ∧
       (qr_redirect hash classify st req now).2.qr.total_scans = st.qr.total_scans + 1) := by
  constructor
  · intro hbad
    apply qr_redirect_password_blocked hcan
    unfold password_gate_blocks check_password
    cases hbad with
    | inl h => simp [h, hpw]
    | inr h =>
      by_cases hemp : req.password_param.getD "" = ""
      · simp [hemp, hpw]
      · simp [hpw, hemp]
        exact fun hh => absurd hh.symm h
  · intro hgood
    have hgate : password_gate_blocks st.qr req = false := by
      unfold password_gate_blocks check_password
      simp [hgood, hpw]
    rw [qr_redirect_records hcan hgate]
    exact ⟨rfl, by simp [update_counters, insert_scan],
      by simp [update_counters, insert_scan, increment_scan_count]⟩

/-- Witness for C4: the protected fixture turns a credential-less request
away with the state untouched, and resolves when the request carries
"hunter2". -/
theorem password_gate_frame_witness :
    qr_redirect wHash wClassify ⟨wPwQr, []⟩ wReq 50 = (.PasswordRequired, ⟨wPwQr, []⟩) ∧
    (qr_redirect wHash wClassify ⟨wPwQr, []⟩
        { wReq with password_param := some "hunter2" } 50).1 =
      .Resolved wPwQr.destination_url :=
  ⟨(password_gate_frame wHash wClassify ⟨wPwQr, []⟩ wReq 50 (by decide) rfl).1 (Or.inl rfl),
   ((password_gate_frame wHash wClassify ⟨wPwQr, []⟩
       { wReq with password_param := some "hunter2" } 50 (by decide) rfl).2 rfl).1⟩

/-! ### C6 — uniqueness accounting -/

theorem qr_redirect_unique_le_total {hash : String → String} {classify : String → UAFlags}
    {st : ResolveState} {req : Request} {now : Int}
    (h : st.qr.unique_scans ≤ st.qr.total_scans) :
    (qr_redirect hash classify st req now).2.qr.unique_scans ≤
      (qr_redirect hash classify st req now).2.qr.total_scans := by
  cases hc : (can_scan st.qr now).1 with
  | false => rw [qr_redirect_denied hc]; exact h
  | true =>
    cases hg : password_gate_blocks st.qr req with
    | true => rw [qr_redirect_password_blocked hc hg]; exact h
    | false =>
      rw [qr_redirect_records hc hg]
      cases hu : is_unique_visitor_check st (generate_visitor_id hash req) <;>
        simp [update_counters, insert_scan, increment_scan_count, hu] <;> omega

theorem qr_redirect_seq_unique_le_total (hash : String → String) (classify : String → UAFlags)
    (steps : List (Request × Int)) :
    ∀ st : ResolveState, st.qr.unique_scans ≤ st.qr.total_scans →
      (qr_redirect_seq hash classify st steps).qr.unique_scans ≤
        (qr_redirect_seq hash classify st steps).qr.total_scans := by
  induction steps with
  | nil => intro st h; exact h
  | cons p rest ih =>
    intro st h
    obtain ⟨req, now⟩ := p
    exact ih _ (qr_redirect_unique_le_total h)

/-- C6: uniqueness accounting.  When recording happens: a resolution
whose fingerprint already appears in a prior Visit of the mapping stores
a Visit flagged non-unique and leaves the unique count unchanged while
the total still increments; a resolution with a fingerprint never seen
for the mapping stores a Visit flagged unique and increments the unique
count; and across any sequence of resolutions the unique count never
exceeds the total count. -/
theorem uniqueness_accounting (hash : String → String) (classify : String → UAFlags) :
    (∀ (st : ResolveState) (req : Request) (now : Int),
       (can_scan st.qr now).1 = true → password_gate_blocks st.qr req = false →
       (∃ s ∈ st.scans, s.visitor_id = generate_visitor_id hash req) →
       (qr_redirect hash classify st req now).2.scans =
         st.scans ++ [build_scan classify req (generate_visitor_id hash req) false now] ∧
       (qr_redirect hash classify st req now).2.qr.unique_scans = st.qr.unique_scans ∧
       (qr_redirect hash classify st req now).2.qr.total_scans = st.qr.total_scans + 1) ∧
    (∀ (st : ResolveState) (req : Request) (now : Int),
       (can_scan st.qr now).1 = true → password_gate_blocks st.qr req = false →
       (∀ s ∈ st.scans, s.visitor_id ≠ generate_visitor_id hash req) →
       (qr_redirect hash classify st req now).2.scans =
         st.scans ++ [build_scan classify req (generate_visitor_id hash req) true now] ∧
       (qr_redirect hash classify st req now).2.qr.unique_scans = st.qr.unique_scans + 1 ∧
       (qr_redirect hash classify st req now).2.qr.total_scans = st.qr.total_scans + 1) ∧
    (∀ (st : ResolveState) (steps : List (Request × Int)),
       st.qr.unique_scans ≤ st.qr.total_scans →
       (qr_redirect_seq hash classify st steps).qr.unique_scans ≤
         (qr_redirect_seq hash classify st steps).qr.total_scans) := by
  refine ⟨fun st req now hc hg hseen => ?_, fun st req now hc hg hfresh => ?_,
    fun st steps h => qr_redirect_seq_unique_le_total hash classify steps st h⟩
  · have hu : is_unique_visitor_check st (generate_visitor_id hash req) = false := by
      obtain ⟨s, hs, hvid⟩ := hseen
      simp [is_unique_visitor_check, List.any_eq_true]
      exact ⟨s, hs, hvid⟩
    rw [qr_redirect_records hc hg, hu]
    exact ⟨by simp [update_counters, insert_scan],
      by simp [update_counters, insert_scan, increment_scan_count],
      by simp [update_counters, insert_scan, increment_scan_count]⟩
  · have hu : is_unique_visitor_check st (generate_visitor_id hash req) = true := by
      simp [is_unique_visitor_check, List.any_eq_true]
      exact hfresh
    rw [qr_redirect_records hc hg, hu]
    exact ⟨by simp [update_counters, insert_scan],
      by simp [update_counters, insert_scan, increment_scan_count],
      by simp [update_counters, insert_scan, increment_scan_count]⟩

/-- Witness for C6: replaying the same request against the state that
already recorded its fingerprint stores a non-unique Visit and leaves the
unique count at 1, and a two-step replay keeps unique ≤ total. -/
theorem uniqueness_accounting_witness :
    ((qr_redirect wHash wClassify wSeenSt wReq 20).2.scans =
       wSeenSt.scans ++ [build_scan wClassify wReq (generate_visitor_id wHash wReq) false 20] ∧
     (qr_redirect wHash wClassify wSeenSt wReq 20).2.qr.unique_scans =
       wSeenSt.qr.unique_scans ∧
     (qr_redirect wHash wClassify wSeenSt wReq 20).2.qr.total_scans =
       wSeenSt.qr.total_scans + 1) ∧
    (qr_redirect_seq wHash wClassify wSeenSt [(wReq, 20), (wReq, 30)]).qr.unique_scans ≤
      (qr_redirect_seq wHash wClassify wSeenSt [(wReq, 20), (wReq, 30)]).qr.total_scans :=
  ⟨(uniqueness_accounting wHash wClassify).1 wSeenSt wReq 20 rfl rfl
     ⟨wSeenScan, by decide, by decide⟩,
   (uniqueness_accounting wHash wClassify).2.2 wSeenSt [(wReq, 20), (wReq, 30)] (by decide)⟩

/-! ### C5 — the recording phase is two separate store commits -/

/-- C5: the recording phase of `qr_redirect` factors into the
`QRScan.objects.create` commit (`insert_scan`, views.py line 297)
followed by the separate `increment_scan_count` commit
(`update_counters`, views.py line 311); no `transaction.atomic` (or
`ATOMIC_REQUESTS`) groups them.  Starting from a consistent store, the
final state is consistent again, but the intermediate state that the
first commit already made durable has a Visit row with stale counters —
a failure between the two commits leaves exactly that state. -/
theorem recording_is_two_separate_commits :
    counters_consistent ⟨wFreshQr, []⟩ ∧
    qr_redirect wHash wClassify ⟨wFreshQr, []⟩ wReq 1000 =
      (.Resolved wFreshQr.destination_url,
        update_counters (insert_scan ⟨wFreshQr, []⟩ wC5Scan) true 1000) ∧
    counters_consistent (update_counters (insert_scan ⟨wFreshQr, []⟩ wC5Scan) true 1000) ∧
    ¬ counters_consistent (insert_scan ⟨wFreshQr, []⟩ wC5Scan) := by
  refine ⟨by decide, by decide, by decide, by decide⟩

/-! ### C8 — the fingerprint input string -/

/-- Counterexample for C8: the digest input is `ip ++ ":" ++ user_agent`
(utils.py line 206), and the separator also occurs inside addresses
(IPv6 `REMOTE_ADDR`, arbitrary forwarded headers).  These two requests
differ in both address and agent yet are hashed from the identical input
string, so they receive the same fingerprint under every digest. -/
theorem fingerprint_input_collision_cex :
    wColReq1.remote_addr ≠ wColReq2.remote_addr ∧
    wColReq1.user_agent ≠ wColReq2.user_agent ∧
    unique_string (get_client_ip wColReq1) wColReq1.user_agent =
      unique_string (get_client_ip wColReq2) wColReq2.user_agent ∧
    generate_visitor_id wHash wColReq1 = generate_visitor_id wHash wColReq2 := by
  decide

theorem colon_split_inj :
    ∀ (l₁ r₁ l₂ r₂ : List Char), ':' ∉ l₁ → ':' ∉ l₂ →
      l₁ ++ ':' :: r₁ = l₂ ++ ':' :: r₂ → l₁ = l₂ ∧ r₁ = r₂ := by
  intro l₁
  induction l₁ with
  | nil =>
    intro r₁ l₂ r₂ _ h₂ h
    cases l₂ with
    | nil => simpa using h
    | cons c t =>
      simp only [List.nil_append, List.cons_append, List.cons.injEq] at h
      obtain ⟨hc, -⟩ := h
      exact absurd (hc ▸ List.mem_cons_self c t) h₂
  | cons c t ih =>
    intro r₁ l₂ r₂ h₁ h₂ h
    cases l₂ with
    | nil =>
      simp only [List.nil_append, List.cons_append, List.cons.injEq] at h
      obtain ⟨hc, -⟩ := h
      exact absurd (hc ▸ List.mem_cons_self c t) h₁
    | cons c' t' =>
      simp only [List.cons_append, List.cons.injEq] at h
      obtain ⟨rfl, h'⟩ := h
      obtain ⟨ht, hr⟩ := ih r₁ t' r₂
        (fun hm => h₁ (List.mem_cons_of_mem _ hm))
        (fun hm => h₂ (List.mem_cons_of_mem _ hm)) h'
      exact ⟨by rw [ht], hr⟩

theorem unique_string_data (ip ua : String) :
    (unique_string ip ua).data = ip.data ++ ':' :: ua.data := by
  show ((ip ++ ":") ++ ua).data = ip.data ++ ':' :: ua.data
  rw [String.data_append, String.data_append]
  simp

/-- C8 (amended): the fingerprint is a deterministic function of the
effective client address and the raw user-agent — two requests agreeing
on those yield the same opaque identifier under any digest — and, as
long as neither address contains the `':'` separator (e.g. IPv4
addresses), distinct address/agent pairs are hashed from distinct input
strings.  (Without that proviso the concatenation is not injective, see
the counterexample.) -/
theorem fingerprint_deterministic (hash : String → String) :
    (∀ req₁ req₂ : Request, get_client_ip req₁ = get_client_ip req₂ →
       req₁.user_agent = req₂.user_agent →
       generate_visitor_id hash req₁ = generate_visitor_id hash req₂) ∧
    (∀ ip₁ ua₁ ip₂ ua₂ : String, ':' ∉ ip₁.data → ':' ∉ ip₂.data →
       unique_string ip₁ ua₁ = unique_string ip₂ ua₂ → ip₁ = ip₂ ∧ ua₁ = ua₂) := by
  constructor
  · intro req₁ req₂ hip hua
    unfold generate_visitor_id
    rw [hip, hua]
  · intro ip₁ ua₁ ip₂ ua₂ h₁ h₂ h
    have hd : ip₁.data ++ ':' :: ua₁.data = ip₂.data ++ ':' :: ua₂.data := by
      rw [← unique_string_data, ← unique_string_data, h]
    obtain ⟨hip, hua⟩ := colon_split_inj ip₁.data ua₁.data ip₂.data ua₂.data h₁ h₂ hd
    exact ⟨String.ext hip, String.ext hua⟩

/-- Witness for the amended C8: two requests differing only in their
referer get the same fingerprint, and for colon-free addresses an input
string determines its address/agent pair. -/
theorem fingerprint_deterministic_witness :
    generate_visitor_id wHash wReq = generate_visitor_id wHash { wReq with referer := "r" } ∧
    (("1.2.3.4" : String) = "1.2.3.4" ∧ ("Moz" : String) = "Moz") :=
  ⟨(fingerprint_deterministic wHash).1 wReq { wReq with referer := "r" } rfl rfl,
   (fingerprint_deterministic wHash).2 "1.2.3.4" "Moz" "1.2.3.4" "Moz"
     (by decide) (by decide) rfl⟩

/-! ### C9 — analytics groupings -/

theorem perm_pair_cases {α : Type} {r : List α} {x y : α} (h : r.Perm [x, y]) :
    r = [x, y] ∨ r = [y, x] := by
  cases r with
  | nil => exact absurd h.length_eq (by simp)
  | cons a r' =>
    cases r' with
    | nil => exact absurd h.length_eq (by simp)
    | cons b r'' =>
      cases r'' with
      | cons c t => exact absurd h.length_eq (by simp)
      | nil =>
        have ha : a = x ∨ a = y := by
          have := h.mem_iff.mp (List.mem_cons_self a [b])
          simpa using this
        cases ha with
        | inl hx =>
          subst hx
          left
          have hb : b = y := by simpa using List.perm_singleton.mp (List.Perm.cons_inv h)
          rw [hb]
        | inr hy =>
          subst hy
          right
          have h' : ([a, b] : List α).Perm [a, x] :=
            h.trans (List.Perm.swap a x [])
          have hb : b = x := by simpa using List.perm_singleton.mp (List.Perm.cons_inv h')
          rw [hb]

/-- Counterexample for C9: the device grouping is ordered only by
`ORDER BY count DESC` (views.py line 340), so for two tied labels the
output with "b" before "a" satisfies everything `qr_analytics`
guarantees, yet it is not ordered with ties broken by label. -/
theorem analytics_tiebreak_cex :
    qr_analytics wTieScans 10 7 wTieResult ∧
    spec_tiebreak_sorted wTieResult.device_stats = false := by
  decide

/-- C9 (amended): every output `qr_analytics` may return has its three
groupings ordered by descending count — the relative order of equal
counts is left unspecified by the source — and its by-day buckets in
chronological order; and for the spec's scenario (three same-day visits
with devices mobile, desktop, mobile under a 7-day window) every
possible output has total 3, by-device exactly `[(mobile, 2),
(desktop, 1)]`, and a single day bucket of 3. -/
theorem analytics_aggregation :
    (∀ (scans : List QRScan) (now days : Int) (r : AnalyticsResult),
       qr_analytics scans now days r →
       sorted_desc_by_count r.device_stats = true ∧
       sorted_desc_by_count r.browser_stats = true ∧
       sorted_desc_by_count r.os_stats = true ∧
       sorted_asc_by_day r.scans_by_date = true) ∧
    (∀ r : AnalyticsResult, qr_analytics wScenarioScans 1000000 7 r →
       r.total_scans = 3 ∧ r.device_stats = [("mobile", 2), ("desktop", 1)] ∧
       r.scans_by_date = [(11, 3)]) := by
  constructor
  · intro scans now days r h
    obtain ⟨-, hd, hb, ho, hday⟩ := h
    exact ⟨hd.2, hb.2, ho.2, hday.2⟩
  · intro r h
    obtain ⟨ht, ⟨hperm, hsort⟩, -, -, hdperm, -⟩ := h
    refine ⟨ht, ?_, ?_⟩
    · have hgc : group_counts (fun s => s.device_type)
          (analytics_window wScenarioScans 1000000 7) = [("mobile", 2), ("desktop", 1)] := by
        decide
      rw [hgc] at hperm
      cases perm_pair_cases hperm with
      | inl he => exact he
      | inr he =>
        rw [he] at hsort
        exact absurd hsort (by decide)
    · have hdc : day_counts (analytics_window wScenarioScans 1000000 7) = [(11, 3)] := by
        decide
      rw [hdc] at hdperm
      exact List.perm_singleton.mp hdperm

/-- Witness for the amended C9 at the canonical scenario output. -/
theorem analytics_aggregation_witness :
    (sorted_desc_by_count wScenarioResult.device_stats = true ∧
     sorted_desc_by_count wScenarioResult.browser_stats = true ∧
     sorted_desc_by_count wScenarioResult.os_stats = true ∧
     sorted_asc_by_day wScenarioResult.scans_by_date = true) ∧
    (wScenarioResult.total_scans = 3 ∧
     wScenarioResult.device_stats = [("mobile", 2), ("desktop", 1)] ∧
     wScenarioResult.scans_by_date = [(11, 3)]) :=
  ⟨analytics_aggregation.1 wScenarioScans 1000000 7 wScenarioResult (by decide),
   analytics_aggregation.2 wScenarioResult (by decide)⟩

end QRGen
